import Mathlib

/-!
Verification of the fallback-invoker and prompt-assembly logic of
src/app2.py (AI Question Paper Maker).

The shallow embedding models one call to generate_with_fallback as a pure
function over a list of backend behaviours: each backend attempt either
raises an exception (resource exhaustion or any other error) or returns a
response object.  A response carries an optional primary text attribute
(None models the attribute being absent, the empty string models a falsy
value) and an optional nested payload modelling
response.candidates[0].content.parts[0].text, where None models that this
chained access raises and is swallowed by the inner try/except.
-/

namespace App2

/-- Primary model identifier from the source configuration. -/
def PRIMARY_MODEL : String := "gemini-2.0-flash"

/-- Fallback model identifiers from the source configuration. -/
def FALLBACK_MODELS : List String :=
  ["gemini-2.5-flash-lite", "gemma-3-1b", "gemma-3-2b", "gemma-3-4b", "gemma-3-12b"]

/-- The ordered backend list iterated by generate_with_fallback:
[PRIMARY_MODEL] + FALLBACK_MODELS. -/
def modelList : List String := [PRIMARY_MODEL] ++ FALLBACK_MODELS

/-- An exception raised by a backend attempt.  resourceExhausted models
google_exceptions.ResourceExhausted (quota / rate limit); other models any
other exception.  The message is an opaque payload identifying the error. -/
inductive GenError where
  | resourceExhausted (msg : String)
  | other (msg : String)
deriving DecidableEq, Repr

/-- A response object returned by model.generate_content.  The text field
models the primary attribute (none = hasattr is false, some "" = present
but falsy).  nestedText models candidates[0].content.parts[0].text, with
none meaning that the chained access raises. -/
structure Response where
  text : Option String
  nestedText : Option String
deriving DecidableEq, Repr

/-- The observable behaviour of one backend attempt: the whole attempt
(model construction plus generate_content) either raises or yields a
response object. -/
inductive BackendBehavior where
  | raises (e : GenError)
  | responds (r : Response)
deriving DecidableEq, Repr

/-- Text extraction from a response, mirroring lines 52-58 of app2.py:
if hasattr(response, "text") and response.text: return response.text;
otherwise try returning candidates[0].content.parts[0].text, and on any
exception there continue to the next backend (modelled as none). -/
def extractText (r : Response) : Option String :=
  match r.text with
  | some t => if t = "" then r.nestedText else some t
  | none => r.nestedText

/-- Outcome of one whole call to generate_with_fallback: a returned text,
a re-raised backend exception, or the generic
RuntimeError("All models failed with unknown error."). -/
inductive FallbackOutcome where
  | success (text : String)
  | raised (e : GenError)
  | runtimeError (msg : String)
deriving DecidableEq, Repr

/-- The loop of generate_with_fallback with the running last_error
accumulator made explicit.  Each backend gets exactly one attempt; a raise
overwrites last_error and moves on; a response with extractable text
returns; a response without extractable text moves on leaving last_error
unchanged.  When the list is exhausted, last_error is re-raised if set,
else the generic RuntimeError is raised. -/
def fallbackLoop : List BackendBehavior → Option GenError → FallbackOutcome
  | [], last_error =>
      match last_error with
      | some e => .raised e
      | none => .runtimeError "All models failed with unknown error."
  | b :: rest, last_error =>
      match b with
      | .raises e => fallbackLoop rest (some e)
      | .responds r =>
          match extractText r with
          | some t => .success t
          | none => fallbackLoop rest last_error

/-- One call to generate_with_fallback over a given backend behaviour
list, starting with last_error = None. -/
def generate_with_fallback (backends : List BackendBehavior) : FallbackOutcome :=
  fallbackLoop backends none

/-- Number of backends attempted by one call (the loop body entered). -/
def attemptsUsed : List BackendBehavior → Nat
  | [] => 0
  | b :: rest =>
      match b with
      | .raises _ => 1 + attemptsUsed rest
      | .responds r =>
          match extractText r with
          | some _ => 1
          | none => 1 + attemptsUsed rest

/-- Indices of the backends attempted, in the order attempted, starting
the numbering at i. -/
def attemptTrace : List BackendBehavior → Nat → List Nat
  | [], _ => []
  | b :: rest, i =>
      match b with
      | .raises _ => i :: attemptTrace rest (i + 1)
      | .responds r =>
          match extractText r with
          | some _ => [i]
          | none => i :: attemptTrace rest (i + 1)

/-- The exception a single backend attempt records into last_error, if
any: a raise records its error, a returned response records nothing. -/
def producedError : BackendBehavior → Option GenError
  | .raises e => some e
  | .responds _ => none

/-- The error raised by the last backend in the list that raises at all,
if any backend raises. -/
def lastRaisedError : List BackendBehavior → Option GenError
  | [] => none
  | b :: rest =>
      match lastRaisedError rest with
      | some e => some e
      | none => producedError b

/-- Whether a backend attempt fails to produce usable text: it raises, or
it returns a response from which no text is extractable. -/
def failsAttempt : BackendBehavior → Bool
  | .raises _ => true
  | .responds r => (extractText r).isNone

/-- Whitespace stripping from both ends, modelling the Python str.strip
method used on the teacher comment. -/
def strip (s : String) : String :=
  String.mk (((s.data.dropWhile Char.isWhitespace).reverse.dropWhile Char.isWhitespace).reverse)

/-- Requirement section of the prompt, lines 143-155 of app2.py: the
teacher-comment override when it is non-blank after stripping, otherwise
the three exact per-tier question counts. -/
def requirement_text (teacher_comment : String) (num_two num_five num_ten : Nat) : String :=
  if strip teacher_comment ≠ "" then
    "Follow these teacher instructions when deciding the number of questions, marks and style:\n"
      ++ strip teacher_comment ++ "\n"
  else
    "\nGenerate exactly:\n- " ++ toString num_two ++ " questions of 2 marks\n- "
      ++ toString num_five ++ " questions of 5 marks\n- "
      ++ toString num_ten ++ " questions of 10 marks\n"

/-- Literal prompt text before the document excerpt. -/
def promptHead : String :=
  "\nYou are an expert university question paper setter.\nYou must create different sets of questions each time you are called,\navoiding reusing previous questions as much as possible.\n\nStudy material:\n\n--- Document Content Start ---\n"

/-- Literal prompt text between the document excerpt and the requirement
section. -/
def promptMid : String :=
  "\n--- Document Content End ---\n\nRequirements:\n"

/-- Literal prompt text between the requirement section and the variation
seed. -/
def promptRules : String :=
  "\n\nAdditional rules:\n- Do NOT repeat questions or wording from any previous paper you might have created.\n- Vary phrasing, ordering and subtopics so each paper feels different.\n- Use clear, exam-style questions only.\n\nRandom variation id: "

/-- Literal prompt text after the variation seed. -/
def promptTail : String :=
  "\n\nFormat clearly like this:\n📘 **Question Paper**\n---\n**Section A (2 Marks Questions)**\n1. ...\n2. ...\n\n**Section B (5 Marks Questions)**\n1. ...\n2. ...\n\n**Section C (10 Marks Questions)**\n1. ...\n2. ...\n"

/-- The assembled prompt, lines 157-192 of app2.py: the fixed header, the
document text truncated to its first 15000 characters, the requirement
section, the fixed rules, the random variation seed and the fixed format
footer. -/
def prompt (full_text : String) (teacher_comment : String)
    (num_two num_five num_ten : Nat) (variation_seed : Nat) : String :=
  promptHead ++ full_text.take 15000 ++ promptMid
    ++ requirement_text teacher_comment num_two num_five num_ten
    ++ promptRules ++ toString variation_seed ++ promptTail

/-- A response whose primary text attribute holds a non-empty string is
extracted to exactly that string, whatever the nested payload is. -/
lemma extractText_primary (t : String) (hne : t ≠ "") (nested : Option String) :
    extractText ⟨some t, nested⟩ = some t := by
  simp [extractText, hne]

/-- Once last_error is set, exhausting the list can never reach the
generic RuntimeError branch. -/
lemma fallbackLoop_some_ne_runtimeError (bs : List BackendBehavior) (e : GenError)
    (m : String) : fallbackLoop bs (some e) ≠ .runtimeError m := by
  induction bs generalizing e with
  | nil => simp [fallbackLoop]
  | cons b rest ih =>
    cases b with
    | raises e' => exact ih e'
    | responds r =>
      cases h : extractText r with
      | some t => simp [fallbackLoop, h]
      | none => simpa [fallbackLoop, h] using ih e

/-- Core loop characterisation for runs in which every backend fails to
produce text: the loop ends in a raise of the most recently recorded
error, where the running accumulator seeds the record. -/
lemma fallbackLoop_all_fail (bs : List BackendBehavior) (last : Option GenError)
    (hfail : ∀ b ∈ bs, failsAttempt b = true) :
    fallbackLoop bs last =
      match lastRaisedError bs with
      | some e => .raised e
      | none =>
          match last with
          | some e => .raised e
          | none => .runtimeError "All models failed with unknown error." := by
  induction bs generalizing last with
  | nil => cases last <;> simp [fallbackLoop, lastRaisedError]
  | cons b rest ih =>
    have hb : failsAttempt b = true := hfail b (by simp)
    have hrest : ∀ b ∈ rest, failsAttempt b = true := fun x hx => hfail x (by simp [hx])
    cases b with
    | raises e =>
      rw [show fallbackLoop (BackendBehavior.raises e :: rest) last
            = fallbackLoop rest (some e) from rfl]
      rw [ih (some e) hrest]
      cases h : lastRaisedError rest <;>
        simp [lastRaisedError, h, producedError]
    | responds r =>
      cases h : extractText r with
      | some t => simp [failsAttempt, h] at hb
      | none =>
        rw [show fallbackLoop (BackendBehavior.responds r :: rest) last
              = fallbackLoop rest last from by simp [fallbackLoop, h]]
        rw [ih last hrest]
        cases hrr : lastRaisedError rest <;>
          simp [lastRaisedError, hrr, producedError]

/-- If a run raises an error, that error was raised by some backend after
which no backend raised, or it was the seed accumulator and no listed
backend raised at all. -/
lemma fallbackLoop_raised_origin (bs : List BackendBehavior) (last : Option GenError)
    (e : GenError) (h : fallbackLoop bs last = .raised e) :
    (∃ i : Nat, bs[i]? = some (BackendBehavior.raises e)
        ∧ ∀ (j : Nat) (x : BackendBehavior), i < j → bs[j]? = some x → producedError x = none)
    ∨ (last = some e
        ∧ ∀ (j : Nat) (x : BackendBehavior), bs[j]? = some x → producedError x = none) := by
  induction bs generalizing last with
  | nil =>
    cases last with
    | none => simp [fallbackLoop] at h
    | some e' =>
      simp only [fallbackLoop, FallbackOutcome.raised.injEq] at h
      subst h
      exact Or.inr ⟨rfl, by intro j x hj; simp at hj⟩
  | cons b rest ih =>
    cases b with
    | raises e' =>
      have h' : fallbackLoop rest (some e') = .raised e := h
      rcases ih (some e') h' with ⟨i, hi, hclean⟩ | ⟨hlast, hclean⟩
      · refine Or.inl ⟨i + 1, by simpa using hi, ?_⟩
        intro j x hj hx
        cases j with
        | zero => omega
        | succ j' =>
          exact hclean j' x (by omega) (by simpa using hx)
      · refine Or.inl ⟨0, ?_, ?_⟩
        · simp only [List.getElem?_cons_zero, Option.some.injEq]
          cases hlast
          rfl
        · intro j x hj hx
          cases j with
          | zero => omega
          | succ j' => exact hclean j' x (by simpa using hx)
    | responds r =>
      cases hr : extractText r with
      | some t => simp [fallbackLoop, hr] at h
      | none =>
        have h' : fallbackLoop rest last = .raised e := by
          simpa [fallbackLoop, hr] using h
        rcases ih last h' with ⟨i, hi, hclean⟩ | ⟨hlast, hclean⟩
        · refine Or.inl ⟨i + 1, by simpa using hi, ?_⟩
          intro j x hj hx
          cases j with
          | zero => omega
          | succ j' =>
            exact hclean j' x (by omega) (by simpa using hx)
        · refine Or.inr ⟨hlast, ?_⟩
          intro j x hx
          cases j with
          | zero =>
            simp only [List.getElem?_cons_zero, Option.some.injEq] at hx
            cases hx
            rfl
          | succ j' => exact hclean j' x (by simpa using hx)

/-- The loop never attempts more backends than the list holds. -/
lemma attemptsUsed_le_length (bs : List BackendBehavior) :
    attemptsUsed bs ≤ bs.length := by
  induction bs with
  | nil => simp [attemptsUsed]
  | cons b rest ih =>
    cases b with
    | raises e => simp [attemptsUsed]; omega
    | responds r =>
      cases h : extractText r with
      | some t => simp [attemptsUsed, h]
      | none => simp [attemptsUsed, h]; omega

/-- The attempted indices, numbered from i, are the first attemptsUsed
naturals shifted by i. -/
lemma attemptTrace_eq_range_shift (bs : List BackendBehavior) (i : Nat) :
    attemptTrace bs i = (List.range (attemptsUsed bs)).map (fun k => k + i) := by
  induction bs generalizing i with
  | nil => simp [attemptTrace, attemptsUsed]
  | cons b rest ih =>
    have step : ∀ j : Nat,
        (List.range (1 + j)).map (fun k => k + i)
          = i :: (List.range j).map (fun k => k + (i + 1)) := by
      intro j
      rw [Nat.add_comm 1 j, List.range_succ_eq_map]
      simp only [List.map_cons, Nat.zero_add, List.map_map]
      have hfun : ((fun k => k + i) ∘ Nat.succ) = fun k => k + (i + 1) := by
        funext k
        simp [Function.comp]
        omega
      rw [hfun]
    cases b with
    | raises e =>
      rw [show attemptTrace (BackendBehavior.raises e :: rest) i
            = i :: attemptTrace rest (i + 1) from rfl]
      rw [show attemptsUsed (BackendBehavior.raises e :: rest)
            = 1 + attemptsUsed rest from rfl]
      rw [ih (i + 1), step]
    | responds r =>
      cases h : extractText r with
      | some t => simp [attemptTrace, attemptsUsed, h, List.range_succ]
      | none =>
        rw [show attemptTrace (BackendBehavior.responds r :: rest) i
              = i :: attemptTrace rest (i + 1) from by simp [attemptTrace, h]]
        rw [show attemptsUsed (BackendBehavior.responds r :: rest)
              = 1 + attemptsUsed rest from by simp [attemptsUsed, h]]
        rw [ih (i + 1), step]

/-- When the first K backends raise quota errors and backend K returns a
response with a non-empty primary text field, the loop returns that text
from any accumulator state and attempts exactly K + 1 backends. -/
lemma fallbackLoop_quota_skip (bs : List BackendBehavior) (K : Nat) (r : Response)
    (t : String)
    (hquota : ∀ i : Nat, i < K →
      ∃ m, bs[i]? = some (BackendBehavior.raises (GenError.resourceExhausted m)))
    (hK : bs[K]? = some (BackendBehavior.responds r))
    (ht : r.text = some t) (hne : t ≠ "") :
    (∀ last, fallbackLoop bs last = .success t) ∧ attemptsUsed bs = K + 1 := by
  induction bs generalizing K with
  | nil => simp at hK
  | cons b rest ih =>
    cases K with
    | zero =>
      simp only [List.getElem?_cons_zero, Option.some.injEq] at hK
      subst hK
      have hx : extractText r = some t := by
        simp [extractText, ht, hne]
      exact ⟨fun last => by simp [fallbackLoop, hx],
             by simp [attemptsUsed, hx]⟩
    | succ K' =>
      obtain ⟨m, hm⟩ := hquota 0 (Nat.succ_pos K')
      simp only [List.getElem?_cons_zero, Option.some.injEq] at hm
      subst hm
      have hq' : ∀ i : Nat, i < K' →
          ∃ m, rest[i]? = some (BackendBehavior.raises (GenError.resourceExhausted m)) := by
        intro i hi
        obtain ⟨m', hm'⟩ := hquota (i + 1) (by omega)
        exact ⟨m', by simpa using hm'⟩
      have hK' : rest[K']? = some (BackendBehavior.responds r) := by simpa using hK
      obtain ⟨hloop, hcount⟩ := ih K' hq' hK'
      refine ⟨fun last => hloop _, ?_⟩
      rw [show attemptsUsed (BackendBehavior.raises (GenError.resourceExhausted m) :: rest)
            = 1 + attemptsUsed rest from rfl, hcount]
      omega

/-- If no backend raises, no error is ever recorded. -/
lemma lastRaisedError_eq_none (bs : List BackendBehavior)
    (h : ∀ b ∈ bs, producedError b = none) : lastRaisedError bs = none := by
  induction bs with
  | nil => rfl
  | cons b rest ih =>
    have hrest := ih (fun x hx => h x (by simp [hx]))
    have hb := h b (by simp)
    simp [lastRaisedError, hrest, hb]

/-- If some backend in the list raises, the run cannot end in the generic
RuntimeError branch. -/
lemma fallbackLoop_mem_raise_ne_runtimeError (bs : List BackendBehavior)
    (last : Option GenError) (m : String)
    (h : ∃ b ∈ bs, producedError b ≠ none) :
    fallbackLoop bs last ≠ .runtimeError m := by
  induction bs generalizing last with
  | nil => obtain ⟨b, hb, _⟩ := h; simp at hb
  | cons b rest ih =>
    obtain ⟨b', hb', hpe⟩ := h
    cases b with
    | raises e =>
      show fallbackLoop rest (some e) ≠ .runtimeError m
      exact fallbackLoop_some_ne_runtimeError rest e m
    | responds r =>
      have hb'' : b' ∈ rest := by
        rcases List.mem_cons.mp hb' with h1 | h1
        · subst h1; simp [producedError] at hpe
        · exact h1
      cases hx : extractText r with
      | some t => simp [fallbackLoop, hx]
      | none =>
        rw [show fallbackLoop (BackendBehavior.responds r :: rest) last
              = fallbackLoop rest last from by simp [fallbackLoop, hx]]
        exact ih last ⟨b', hb'', hpe⟩

example :
    generate_with_fallback
      [.raises (.resourceExhausted "q"), .responds ⟨some "OK", none⟩]
      = .success "OK" := by decide

example :
    generate_with_fallback
      [.raises (.resourceExhausted "q"), .raises (.other "boom")]
      = .raised (.other "boom") := by decide

example :
    generate_with_fallback [.responds ⟨none, none⟩]
      = .runtimeError "All models failed with unknown error." := by decide

example :
    generate_with_fallback [.raises (.other "boom"), .responds ⟨some "", none⟩]
      = .raised (.other "boom") := by decide

example : attemptsUsed [.raises (.resourceExhausted "q"), .responds ⟨some "OK", none⟩, .raises (.other "x")] = 2 := by decide

example : attemptTrace [.raises (.resourceExhausted "q"), .responds ⟨some "OK", none⟩, .raises (.other "x")] 0 = [0, 1] := by decide

/-- Claim C1: when the first K backends raise quota-exhaustion errors and
backend K (zero-based, i.e. the K+1-th backend) returns a response whose
primary text field is non-empty, generate_with_fallback returns that text
and attempts exactly K + 1 backends, so backend K + 2 and all later
backends are never attempted. -/
theorem C1_first_success_after_quota (bs : List BackendBehavior) (K : Nat)
    (r : Response) (t : String)
    (hquota : ∀ i : Nat, i < K →
      ∃ m, bs[i]? = some (BackendBehavior.raises (GenError.resourceExhausted m)))
    (hK : bs[K]? = some (BackendBehavior.responds r))
    (ht : r.text = some t) (hne : t ≠ "") :
    generate_with_fallback bs = .success t ∧ attemptsUsed bs = K + 1 := by
  obtain ⟨hloop, hcount⟩ := fallbackLoop_quota_skip bs K r t hquota hK ht hne
  exact ⟨hloop none, hcount⟩

/-- Witness for C1 at a concrete three-backend list: one quota failure,
then a success, and the third backend is never attempted. -/
theorem C1_first_success_after_quota_witness :
    generate_with_fallback
      [BackendBehavior.raises (GenError.resourceExhausted "q1"),
       BackendBehavior.responds ⟨some "OK", some "nested"⟩,
       BackendBehavior.raises (GenError.other "never")] = .success "OK"
    ∧ attemptsUsed
      [BackendBehavior.raises (GenError.resourceExhausted "q1"),
       BackendBehavior.responds ⟨some "OK", some "nested"⟩,
       BackendBehavior.raises (GenError.other "never")] = 2 :=
  C1_first_success_after_quota
    [BackendBehavior.raises (GenError.resourceExhausted "q1"),
     BackendBehavior.responds ⟨some "OK", some "nested"⟩,
     BackendBehavior.raises (GenError.other "never")] 1
    ⟨some "OK", some "nested"⟩ "OK"
    (by
      intro i hi
      have h0 : i = 0 := by omega
      subst h0
      exact ⟨"q1", rfl⟩)
    rfl rfl (by decide)

/-- Claim C3: a response with a present, non-empty primary text field is
returned unmodified, and the nested extraction path is never consulted:
the outcome is the same for every value of the nested payload and of the
remaining backends. -/
theorem C3_primary_text_returned_unmodified (t : String) (hne : t ≠ "")
    (nested : Option String) (rest : List BackendBehavior) :
    extractText ⟨some t, nested⟩ = some t
    ∧ generate_with_fallback (BackendBehavior.responds ⟨some t, nested⟩ :: rest)
        = .success t := by
  have hx := extractText_primary t hne nested
  exact ⟨hx, by simp [generate_with_fallback, fallbackLoop, hx]⟩

/-- Witness for C3 at a concrete response whose nested payload differs
from the primary text. -/
theorem C3_primary_text_returned_unmodified_witness :
    extractText ⟨some "ans", some "other"⟩ = some "ans"
    ∧ generate_with_fallback
        (BackendBehavior.responds ⟨some "ans", some "other"⟩
          :: [BackendBehavior.raises (GenError.other "x")]) = .success "ans" :=
  C3_primary_text_returned_unmodified "ans" (by decide) (some "other")
    [BackendBehavior.raises (GenError.other "x")]

/-- Claim C4: when the primary text field is absent or empty but the
nested candidate path yields text, that text is returned as a success and
the attempt is not treated as a failure: exactly one backend is attempted
and no further backend is consulted. -/
theorem C4_nested_text_is_success (r : Response)
    (hprim : r.text = none ∨ r.text = some "") (s : String)
    (hn : r.nestedText = some s) (rest : List BackendBehavior) :
    generate_with_fallback (BackendBehavior.responds r :: rest) = .success s
    ∧ attemptsUsed (BackendBehavior.responds r :: rest) = 1 := by
  have hx : extractText r = some s := by
    rcases hprim with h | h <;> simp [extractText, h, hn]
  exact ⟨by simp [generate_with_fallback, fallbackLoop, hx],
         by simp [attemptsUsed, hx]⟩

/-- Witness for C4 at a concrete response with no primary attribute and a
nested payload, followed by a backend that would raise. -/
theorem C4_nested_text_is_success_witness :
    generate_with_fallback
      (BackendBehavior.responds ⟨none, some "from nested"⟩
        :: [BackendBehavior.raises (GenError.other "y")]) = .success "from nested"
    ∧ attemptsUsed
        (BackendBehavior.responds ⟨none, some "from nested"⟩
          :: [BackendBehavior.raises (GenError.other "y")]) = 1 :=
  C4_nested_text_is_success ⟨none, some "from nested"⟩ (Or.inl rfl)
    "from nested" rfl [BackendBehavior.raises (GenError.other "y")]

/-- Claim C7: every invocation attempts at most as many backends as the
list holds, and the attempted indices are exactly 0, 1, ..., up to the
number of attempts: each backend is attempted at most once, in the fixed
primary-first order, with no retries. -/
theorem C7_attempts_bounded_and_in_order (bs : List BackendBehavior) :
    attemptsUsed bs ≤ bs.length
    ∧ attemptTrace bs 0 = List.range (attemptsUsed bs)
    ∧ (attemptTrace bs 0).Nodup := by
  have htrace : attemptTrace bs 0 = List.range (attemptsUsed bs) := by
    have h := attemptTrace_eq_range_shift bs 0
    simpa using h
  refine ⟨attemptsUsed_le_length bs, htrace, ?_⟩
  rw [htrace]
  exact List.nodup_range _

/-- Counterexample to claim C2 as stated: in this two-backend list every
backend fails and the call raises the first backend error, yet the last
backend attempted (the second one, a response with no extractable text)
produced no error at all, so the attached cause is not the error of the
last backend attempted. -/
theorem C2_counterexample :
    (∀ b ∈ ([BackendBehavior.raises (GenError.other "boom"),
             BackendBehavior.responds ⟨none, none⟩] : List BackendBehavior),
        failsAttempt b = true)
    ∧ generate_with_fallback
        [BackendBehavior.raises (GenError.other "boom"),
         BackendBehavior.responds ⟨none, none⟩]
        = .raised (GenError.other "boom")
    ∧ attemptsUsed
        [BackendBehavior.raises (GenError.other "boom"),
         BackendBehavior.responds ⟨none, none⟩] = 2
    ∧ (([BackendBehavior.raises (GenError.other "boom"),
         BackendBehavior.responds ⟨none, none⟩] : List BackendBehavior).getLast?
          |>.map producedError) = some none := by decide

/-- Claim C2 (amended): when every backend fails, the call raises the
most recently recorded error, namely the error of the last backend that
raised an exception; when no backend raised, the generic RuntimeError is
raised instead. -/
theorem C2_amended_cause_is_last_raised (bs : List BackendBehavior)
    (hfail : ∀ b ∈ bs, failsAttempt b = true) :
    generate_with_fallback bs =
      match lastRaisedError bs with
      | some e => .raised e
      | none => .runtimeError "All models failed with unknown error." := by
  have h := fallbackLoop_all_fail bs none hfail
  cases hl : lastRaisedError bs with
  | some e =>
    rw [hl] at h
    exact h
  | none =>
    rw [hl] at h
    exact h

/-- Witness for the amended C2 at a concrete list whose last raising
backend is followed by a silently failing response. -/
theorem C2_amended_cause_is_last_raised_witness :
    generate_with_fallback
      [BackendBehavior.raises (GenError.other "e1"),
       BackendBehavior.raises (GenError.resourceExhausted "e2"),
       BackendBehavior.responds ⟨some "", none⟩]
      = .raised (GenError.resourceExhausted "e2") := by
  have h := C2_amended_cause_is_last_raised
    [BackendBehavior.raises (GenError.other "e1"),
     BackendBehavior.raises (GenError.resourceExhausted "e2"),
     BackendBehavior.responds ⟨some "", none⟩] (by decide)
  simpa using h

/-- Counterexample to claim C5 as stated: a quota-exhaustion error raised
by the first backend of a two-backend list is surfaced to the caller,
because the final backend returns a response with no extractable text and
records no error. -/
theorem C5_counterexample :
    (([BackendBehavior.raises (GenError.resourceExhausted "quota"),
       BackendBehavior.responds ⟨none, none⟩] : List BackendBehavior).length = 2)
    ∧ [BackendBehavior.raises (GenError.resourceExhausted "quota"),
       BackendBehavior.responds ⟨none, none⟩][0]?
        = some (BackendBehavior.raises (GenError.resourceExhausted "quota"))
    ∧ generate_with_fallback
        [BackendBehavior.raises (GenError.resourceExhausted "quota"),
         BackendBehavior.responds ⟨none, none⟩]
        = .raised (GenError.resourceExhausted "quota") := by decide

/-- Claim C5 (amended): when the call ends by raising an error, that
error was raised by some backend after which no later backend raised any
error; hence a quota-exhaustion error is never surfaced when a later
backend raised, but it can be surfaced from a non-final backend when all
later backends return responses without usable text. -/
theorem C5_amended_surfaced_error_is_last_raised (bs : List BackendBehavior)
    (e : GenError) (h : generate_with_fallback bs = .raised e) :
    ∃ i : Nat, bs[i]? = some (BackendBehavior.raises e)
      ∧ ∀ (j : Nat) (x : BackendBehavior), i < j → bs[j]? = some x →
          producedError x = none := by
  rcases fallbackLoop_raised_origin bs none e h with hl | ⟨hlast, _⟩
  · exact hl
  · exact Option.noConfusion hlast

/-- Witness for the amended C5 at a concrete single-backend list. -/
theorem C5_amended_surfaced_error_is_last_raised_witness :
    ∃ i : Nat,
      [BackendBehavior.raises (GenError.other "z")][i]?
        = some (BackendBehavior.raises (GenError.other "z"))
      ∧ ∀ (j : Nat) (x : BackendBehavior), i < j →
          [BackendBehavior.raises (GenError.other "z")][j]? = some x →
          producedError x = none :=
  C5_amended_surfaced_error_is_last_raised
    [BackendBehavior.raises (GenError.other "z")] (GenError.other "z") (by decide)

/-- Counterexample to claim C6 as stated: a non-empty list consisting of
one backend that returns a response with no extractable text is exhausted
without success and without any recorded error, so the generic all-models
RuntimeError branch is reached. -/
theorem C6_counterexample :
    ([BackendBehavior.responds ⟨none, none⟩] ≠ ([] : List BackendBehavior))
    ∧ attemptsUsed [BackendBehavior.responds ⟨none, none⟩] = 1
    ∧ generate_with_fallback [BackendBehavior.responds ⟨none, none⟩]
        = .runtimeError "All models failed with unknown error." := by decide

/-- Claim C6 (amended): the generic all-models-failed branch is
unreachable whenever at least one backend raises an exception; it is
reached exactly when the list is exhausted and no attempted backend ever
raised. -/
theorem C6_amended_generic_branch_needs_no_raise (bs : List BackendBehavior)
    (h : ∃ b ∈ bs, producedError b ≠ none) (m : String) :
    generate_with_fallback bs ≠ .runtimeError m :=
  fallbackLoop_mem_raise_ne_runtimeError bs none m h

/-- Witness for the amended C6 at a concrete list containing a raising
backend. -/
theorem C6_amended_generic_branch_needs_no_raise_witness :
    generate_with_fallback
      [BackendBehavior.raises (GenError.other "w"),
       BackendBehavior.responds ⟨none, none⟩]
      ≠ .runtimeError "All models failed with unknown error." :=
  C6_amended_generic_branch_needs_no_raise
    [BackendBehavior.raises (GenError.other "w"),
     BackendBehavior.responds ⟨none, none⟩]
    (by decide) "All models failed with unknown error."

/-- Claim C8: two prompt assemblies sharing the document text, the
question counts and the teacher comment, but carrying different variation
seeds, agree on a common text before and a common text after the seed, so
they differ only in the seed substring. -/
theorem C8_prompts_differ_only_in_seed (full_text teacher_comment : String)
    (num_two num_five num_ten : Nat) (s1 s2 : Nat) (_hne : s1 ≠ s2) :
    ∃ A B : String,
      prompt full_text teacher_comment num_two num_five num_ten s1
        = A ++ toString s1 ++ B
      ∧ prompt full_text teacher_comment num_two num_five num_ten s2
        = A ++ toString s2 ++ B := by
  refine ⟨promptHead ++ full_text.take 15000 ++ promptMid
      ++ requirement_text teacher_comment num_two num_five num_ten ++ promptRules,
    promptTail, ?_, ?_⟩ <;>
    simp [prompt, String.append_assoc]

/-- Witness for C8 at concrete inputs with seeds 10 and 20. -/
theorem C8_prompts_differ_only_in_seed_witness :
    ∃ A B : String,
      prompt "doc" "" 1 2 3 10 = A ++ toString (10 : Nat) ++ B
      ∧ prompt "doc" "" 1 2 3 20 = A ++ toString (20 : Nat) ++ B :=
  C8_prompts_differ_only_in_seed "doc" "" 1 2 3 10 20 (by decide)

/-- Claim C9: when the teacher comment is non-blank after stripping, the
requirement section is the override instruction block around the stripped
comment and does not depend on the three question counts; when the
comment strips to empty, the requirement section states exactly the three
chosen counts of 2-mark, 5-mark and 10-mark questions. -/
theorem C9_requirement_override_or_counts (teacher_comment : String)
    (num_two num_five num_ten : Nat) :
    (strip teacher_comment ≠ "" →
      requirement_text teacher_comment num_two num_five num_ten
        = "Follow these teacher instructions when deciding the number of questions, marks and style:\n"
          ++ strip teacher_comment ++ "\n"
      ∧ ∀ m2 m5 m10 : Nat,
          requirement_text teacher_comment num_two num_five num_ten
            = requirement_text teacher_comment m2 m5 m10)
    ∧ (strip teacher_comment = "" →
      requirement_text teacher_comment num_two num_five num_ten
        = "\nGenerate exactly:\n- " ++ toString num_two
          ++ " questions of 2 marks\n- " ++ toString num_five
          ++ " questions of 5 marks\n- " ++ toString num_ten
          ++ " questions of 10 marks\n") := by
  constructor
  · intro h
    refine ⟨by simp [requirement_text, h], ?_⟩
    intro m2 m5 m10
    simp [requirement_text, h]
  · intro h
    simp [requirement_text, h]

/-- Witness for C9: a non-blank comment selects the override block
independently of the counts, and a blank comment selects the counts
block. -/
theorem C9_requirement_override_or_counts_witness :
    (requirement_text " use essays " 1 2 3
      = "Follow these teacher instructions when deciding the number of questions, marks and style:\n"
        ++ strip " use essays " ++ "\n")
    ∧ requirement_text " use essays " 1 2 3 = requirement_text " use essays " 7 8 9
    ∧ requirement_text "  " 1 2 3
      = "\nGenerate exactly:\n- " ++ toString (1 : Nat)
        ++ " questions of 2 marks\n- " ++ toString (2 : Nat)
        ++ " questions of 5 marks\n- " ++ toString (3 : Nat)
        ++ " questions of 10 marks\n" :=
  ⟨((C9_requirement_override_or_counts " use essays " 1 2 3).1 (by decide)).1,
   ((C9_requirement_override_or_counts " use essays " 1 2 3).1 (by decide)).2 7 8 9,
   (C9_requirement_override_or_counts "  " 1 2 3).2 (by decide)⟩

/-- Claim C10: a backend attempt that returns a response with no
extractable text advances to the next backend leaving last_error exactly
as it was; consequently the error surfaced after exhausting the list can
originate from a backend earlier than the last one attempted, as the
embedded two-backend run shows; and when no backend ever raised, a total
failure ends in the generic RuntimeError carrying no underlying cause. -/
theorem C10_silent_continue_behaviour :
    (∀ r : Response, extractText r = none →
      ∀ (rest : List BackendBehavior) (last : Option GenError),
        fallbackLoop (BackendBehavior.responds r :: rest) last
          = fallbackLoop rest last)
    ∧ generate_with_fallback
        [BackendBehavior.raises (GenError.other "early"),
         BackendBehavior.responds ⟨some "", none⟩]
        = .raised (GenError.other "early")
    ∧ (∀ bs : List BackendBehavior,
        (∀ b ∈ bs, producedError b = none) →
        (∀ b ∈ bs, failsAttempt b = true) →
        generate_with_fallback bs
          = .runtimeError "All models failed with unknown error.") := by
  refine ⟨?_, by decide, ?_⟩
  · intro r hr rest last
    simp [fallbackLoop, hr]
  · intro bs hquiet hfail
    have h := fallbackLoop_all_fail bs none hfail
    rw [lastRaisedError_eq_none bs hquiet] at h
    exact h

/-- Witness for C10: a textless response attempt is transparent to the
loop state, and a list of only textless responses ends in the generic
RuntimeError. -/
theorem C10_silent_continue_behaviour_witness :
    fallbackLoop
      (BackendBehavior.responds ⟨some "", none⟩
        :: [BackendBehavior.raises (GenError.other "later")]) none
      = fallbackLoop [BackendBehavior.raises (GenError.other "later")] none
    ∧ generate_with_fallback [BackendBehavior.responds ⟨none, none⟩]
        = .runtimeError "All models failed with unknown error." :=
  ⟨C10_silent_continue_behaviour.1 ⟨some "", none⟩ (by decide)
      [BackendBehavior.raises (GenError.other "later")] none,
   C10_silent_continue_behaviour.2.2 [BackendBehavior.responds ⟨none, none⟩]
      (by decide) (by decide)⟩

end App2
